import Mathlib

/-!
Verification development for an option-pricing, strategy-modelling and
backtesting system.

The development shallowly embeds the program's data model and operations:

* exact monetary and percentage arithmetic is embedded over `ℚ`
  (the risk manager's exit rules, the backtest engine's accounting);
* the Black-Scholes closed-form layer is embedded over `ℝ`, with the
  standard normal distribution function `normCdf` defined as the Lebesgue
  integral of the standard normal density;
* IEEE-754 special values (infinities, NaN), which govern what the pricing
  code does on invalid inputs, are embedded by the carrier `Fl`;
* the process-wide numpy random-generator state is embedded by explicit
  state passing (`NpRandomState`).

Dates are embedded by their only observable uses: an entry day index and a
days-to-expiry count (the code compares `(expiry - now).days` with a bound).
-/

open MeasureTheory

/-! ## Rational layer: risk management (risk_management.py) -/

/-- `Position` from risk_management.py.  `expiry_dte` embeds the only use the
exit logic makes of `expiry_date`: the value of
`(datetime.strptime(expiry_date) - datetime.now()).days` at the check.
`entry_day` embeds `entry_time` as a day index. -/
structure RPosition where
  symbol : String
  option_type : String
  strike_price : ℚ
  expiry_dte : ℤ
  quantity : ℤ
  entry_price : ℚ
  current_price : ℚ
  entry_day : ℕ
  strategy_name : String
deriving DecidableEq

/-- `RiskManager` configuration fields used by the exit rules. -/
structure RiskManagerQ where
  stop_loss_pct : ℚ
  take_profit_pct : ℚ
deriving DecidableEq

/-- The `RiskManager()` defaults: `stop_loss_pct=0.02`, `take_profit_pct=0.05`. -/
def rmDefault : RiskManagerQ := ⟨2/100, 5/100⟩

/-- Python's `str.lower()`. -/
def pyLower (s : String) : String := ⟨s.data.map Char.toLower⟩

/-- `RiskManager.calculate_stop_loss_level`. -/
def calculate_stop_loss_level (rm : RiskManagerQ) (entry_price : ℚ) (option_type : String) : ℚ :=
  if pyLower option_type = "call" then entry_price * (1 - rm.stop_loss_pct)
  else entry_price * (1 + rm.stop_loss_pct)

/-- `RiskManager.calculate_take_profit_level`. -/
def calculate_take_profit_level (rm : RiskManagerQ) (entry_price : ℚ) (option_type : String) : ℚ :=
  if pyLower option_type = "call" then entry_price * (1 + rm.take_profit_pct)
  else entry_price * (1 - rm.take_profit_pct)

/-- `RiskManager.should_exit_position`: stop-loss, then take-profit, then
time-decay, else hold. -/
def should_exit_position (rm : RiskManagerQ) (position : RPosition) (current_price : ℚ) :
    Bool × String :=
  if pyLower position.option_type = "call" ∧
      current_price ≤ calculate_stop_loss_level rm position.entry_price position.option_type then
    (true, "stop_loss")
  else if pyLower position.option_type = "put" ∧
      calculate_stop_loss_level rm position.entry_price position.option_type ≤ current_price then
    (true, "stop_loss")
  else if pyLower position.option_type = "call" ∧
      calculate_take_profit_level rm position.entry_price position.option_type ≤ current_price then
    (true, "take_profit")
  else if pyLower position.option_type = "put" ∧
      current_price ≤ calculate_take_profit_level rm position.entry_price position.option_type then
    (true, "take_profit")
  else if position.expiry_dte ≤ 7 then (true, "time_decay")
  else (false, "hold")

/-- The condition of the code's stop-loss branch pair. -/
def stopHit (rm : RiskManagerQ) (position : RPosition) (current_price : ℚ) : Prop :=
  (pyLower position.option_type = "call" ∧
      current_price ≤ calculate_stop_loss_level rm position.entry_price position.option_type) ∨
    (pyLower position.option_type = "put" ∧
      calculate_stop_loss_level rm position.entry_price position.option_type ≤ current_price)

/-- The condition of the code's take-profit branch pair. -/
def tpHit (rm : RiskManagerQ) (position : RPosition) (current_price : ℚ) : Prop :=
  (pyLower position.option_type = "call" ∧
      calculate_take_profit_level rm position.entry_price position.option_type ≤ current_price) ∨
    (pyLower position.option_type = "put" ∧
      current_price ≤ calculate_take_profit_level rm position.entry_price position.option_type)

instance (rm : RiskManagerQ) (p : RPosition) (c : ℚ) : Decidable (stopHit rm p c) := by
  unfold stopHit; exact inferInstance

instance (rm : RiskManagerQ) (p : RPosition) (c : ℚ) : Decidable (tpHit rm p c) := by
  unfold tpHit; exact inferInstance

/-- `RiskManager._calculate_delta`: the hardcoded per-position delta. -/
def rm_calculate_delta (position : RPosition) : ℚ :=
  if pyLower position.option_type = "call" then 1/2 else -(1/2)

/-- `RiskManager._calculate_gamma` (hardcoded). -/
def rm_calculate_gamma (_position : RPosition) : ℚ := 1/100

/-- `RiskManager._calculate_theta` (hardcoded). -/
def rm_calculate_theta (_position : RPosition) : ℚ := -(1/10)

/-- `RiskManager._calculate_vega` (hardcoded). -/
def rm_calculate_vega (_position : RPosition) : ℚ := 1/5

/-- `RiskManager._calculate_rho` (hardcoded). -/
def rm_calculate_rho (_position : RPosition) : ℚ := 1/20

/-- The `total_delta` sum of `RiskManager.calculate_portfolio_metrics`:
`sum(pos.quantity * self._calculate_delta(pos) for pos in self.positions)`. -/
def rm_total_delta (positions : List RPosition) : ℚ :=
  (positions.map (fun p => (p.quantity : ℚ) * rm_calculate_delta p)).sum

/-! ## Rational layer: backtest engine (backtesting.py) -/

/-- `Trade` from backtesting.py (dates as day indices). -/
structure BTrade where
  entry_day : ℕ
  exit_day : ℕ
  strategy : String
  entry_price : ℚ
  exit_price : ℚ
  quantity : ℤ
  pnl : ℚ
  return_pct : ℚ
deriving DecidableEq

/-- One point of `BacktestEngine.equity_curve`. -/
structure EquityPoint where
  day : ℕ
  equity : ℚ
  capital : ℚ
  position_count : ℕ
deriving DecidableEq

/-- The mutable state of `BacktestEngine` during a run. -/
structure BState where
  current_capital : ℚ
  positions : List RPosition
  trades : List BTrade
  equity_curve : List EquityPoint
deriving DecidableEq

/-- `BacktestEngine.__init__` state with `initial_capital=1000000`. -/
def initialBState : BState := ⟨1000000, [], [], []⟩

/-- `BacktestEngine._get_atm_strike`: `round(spot_price / 50) * 50`. -/
def get_atm_strike (spot_price : ℚ) : ℚ := (round (spot_price / 50) : ℤ) * 50

/-- `BacktestEngine._calculate_position_size`: 2% of capital at risk divided by
lot value; `int()` truncation embedded by `Int.floor` (arguments are
nonnegative at every use). -/
def calculate_position_size (capital option_price : ℚ) : ℤ :=
  let max_risk := capital * (2/100)
  let position_value := option_price * 50
  if 0 < position_value then ⌊max_risk / position_value⌋ else 0

/-- `BacktestEngine._select_strategy`'s volatility rule table. -/
def backtest_select_strategy (volatility : ℚ) : String :=
  if 3/10 < volatility then "straddle"
  else if 1/4 < volatility then "strangle"
  else if volatility < 1/5 then "iron_condor"
  else "butterfly"

/-- `BacktestEngine._should_enter_trade`: no open positions, capital at least
100000, trailing volatility within the band. -/
def should_enter_trade (s : BState) (volatility : ℚ) : Bool :=
  if 0 < s.positions.length then false
  else if s.current_capital < 100000 then false
  else if volatility < 15/100 ∨ 1/2 < volatility then false
  else true

/-- `BacktestEngine._enter_trade`: prices an ATM call and put with the day's
pricing oracle `priceOf` (strike, option type ↦ price, embedding
`_calculate_option_price` at the day's spot), sizes the position, and appends
a call `Position` and a put `Position`; capital is debited by
`(call_price + put_price) * position_size * 50`.  This is what the code does
for every selected strategy name. -/
def enter_trade (s : BState) (day : ℕ) (spot_price : ℚ) (strategy : String)
    (priceOf : ℚ → String → ℚ) (new_dte : ℤ) : BState :=
  let strike_price := get_atm_strike spot_price
  let call_price := priceOf strike_price "call"
  let put_price := priceOf strike_price "put"
  let position_size := calculate_position_size s.current_capital (call_price + put_price)
  if 0 < position_size then
    let call_position : RPosition :=
      ⟨"NIFTY-CE", "call", strike_price, new_dte, position_size, call_price, call_price, day,
        strategy⟩
    let put_position : RPosition :=
      ⟨"NIFTY-PE", "put", strike_price, new_dte, position_size, put_price, put_price, day,
        strategy⟩
    { s with
      positions := s.positions ++ [call_position, put_position]
      current_capital := s.current_capital - (call_price + put_price) * position_size * 50 }
  else s

/-- `BacktestEngine._close_position`: pnl = (current - entry) * quantity * 50
is credited to capital, a `Trade` is recorded, and the position is removed.
Note that only the pnl — not the position's sale value — reaches capital. -/
def close_position (s : BState) (position : RPosition) (day : ℕ) : BState :=
  let pnl := (position.current_price - position.entry_price) * (position.quantity : ℚ) * 50
  let return_pct := (position.current_price - position.entry_price) / position.entry_price
  let trade : BTrade :=
    ⟨position.entry_day, day, position.strategy_name, position.entry_price,
      position.current_price, position.quantity, pnl, return_pct⟩
  { s with
    trades := s.trades ++ [trade]
    current_capital := s.current_capital + pnl
    positions := s.positions.erase position }

/-- `BacktestEngine._check_exit_signals`: collect the positions whose exit
signal fires (evaluated at `position.current_price`), then close them. -/
def check_exit_signals (rm : RiskManagerQ) (s : BState) (day : ℕ) : BState :=
  let positions_to_close :=
    s.positions.filter (fun p => (should_exit_position rm p p.current_price).1)
  positions_to_close.foldl (fun st p => close_position st p day) s

/-- `BacktestEngine._update_position_values`: re-mark every open position with
the day's pricing oracle. -/
def update_position_values (s : BState) (priceOf : ℚ → String → ℚ) : BState :=
  { s with
    positions :=
      s.positions.map (fun p => { p with current_price := priceOf p.strike_price p.option_type }) }

/-- `BacktestEngine._update_equity_curve`: equity = capital + mark value of the
open positions. -/
def update_equity_curve (s : BState) (day : ℕ) : BState :=
  let position_value := (s.positions.map (fun p => p.current_price * (p.quantity : ℚ) * 50)).sum
  { s with
    equity_curve :=
      s.equity_curve ++
        [⟨day, s.current_capital + position_value, s.current_capital, s.positions.length⟩] }

/-- The market inputs of one bar: day index, closing spot, trailing realized
volatility, the pricing oracle for the day, and the days-to-expiry a freshly
opened position would carry. -/
structure DayInput where
  day : ℕ
  spot_price : ℚ
  volatility : ℚ
  priceOf : ℚ → String → ℚ
  new_dte : ℤ

/-- `BacktestEngine._process_day` followed by `_update_equity_curve`, as in the
`run_backtest` loop: exits, then possibly an entry, then mark to market, then
the equity snapshot. -/
def process_day (rm : RiskManagerQ) (s : BState) (d : DayInput) : BState :=
  let s1 := check_exit_signals rm s d.day
  let s2 :=
    if should_enter_trade s1 d.volatility then
      enter_trade s1 d.day d.spot_price (backtest_select_strategy d.volatility) d.priceOf d.new_dte
    else s1
  let s3 := update_position_values s2 d.priceOf
  update_equity_curve s3 d.day

/-- The day-stepped loop of `BacktestEngine.run_backtest`. -/
def run_backtest_days (rm : RiskManagerQ) (s : BState) (days : List DayInput) : BState :=
  days.foldl (process_day rm) s

/-! ## StrategySelector (option_strategies.py) -/

/-- `StrategySelector.select_strategy`: rule table over volatility and trend
(the `time_to_expiry` entry of `market_conditions` is read but unused). -/
def selector_select_strategy (volatility : ℚ) (trend : String) : String :=
  if 3/10 < volatility ∧ trend = "neutral" then "straddle"
  else if 1/4 < volatility ∧ trend = "neutral" then "strangle"
  else if volatility < 1/5 ∧ trend = "neutral" then "iron_condor"
  else if volatility < 3/20 ∧ trend = "neutral" then "butterfly"
  else "straddle"

/-! ## Real layer: the standard normal distribution (scipy.stats.norm) -/

/-- The standard normal density, `scipy.stats.norm.pdf`. -/
noncomputable def normPdf (x : ℝ) : ℝ :=
  (Real.sqrt (2 * Real.pi))⁻¹ * Real.exp (-(x ^ 2) / 2)

/-- The standard normal distribution function, `scipy.stats.norm.cdf`. -/
noncomputable def normCdf (x : ℝ) : ℝ := ∫ t in Set.Iic x, normPdf t

/-! ## Real layer: Black-Scholes closed form (option_pricing.py) -/

/-- `OptionParams` from option_pricing.py. -/
structure OptionParams where
  spot_price : ℝ
  strike_price : ℝ
  time_to_expiry : ℝ
  risk_free_rate : ℝ
  volatility : ℝ
  dividend_yield : ℝ
deriving Inhabited

/-- The `d1` term of `BlackScholesPricer`. -/
noncomputable def bs_d1 (p : OptionParams) : ℝ :=
  (Real.log (p.spot_price / p.strike_price) +
      (p.risk_free_rate - p.dividend_yield + p.volatility ^ 2 / 2) * p.time_to_expiry) /
    (p.volatility * Real.sqrt p.time_to_expiry)

/-- The `d2` term of `BlackScholesPricer`. -/
noncomputable def bs_d2 (p : OptionParams) : ℝ :=
  bs_d1 p - p.volatility * Real.sqrt p.time_to_expiry

open Classical in
/-- `BlackScholesPricer.calculate_price`. -/
noncomputable def calculate_price (p : OptionParams) (option_type : String) : ℝ :=
  if p.time_to_expiry ≤ 0 then
    if pyLower option_type = "call" then max (p.spot_price - p.strike_price) 0
    else max (p.strike_price - p.spot_price) 0
  else if pyLower option_type = "call" then
    max (p.spot_price * Real.exp (-p.dividend_yield * p.time_to_expiry) * normCdf (bs_d1 p) -
      p.strike_price * Real.exp (-p.risk_free_rate * p.time_to_expiry) * normCdf (bs_d2 p)) 0
  else
    max (p.strike_price * Real.exp (-p.risk_free_rate * p.time_to_expiry) * normCdf (-bs_d2 p) -
      p.spot_price * Real.exp (-p.dividend_yield * p.time_to_expiry) * normCdf (-bs_d1 p)) 0

/-- The Greeks dictionary returned by `BlackScholesPricer.calculate_greeks`. -/
structure BsGreeks where
  delta : ℝ
  gamma : ℝ
  theta : ℝ
  vega : ℝ
  rho : ℝ
deriving Inhabited

open Classical in
/-- `BlackScholesPricer.calculate_greeks`. -/
noncomputable def bs_calculate_greeks (p : OptionParams) (option_type : String) : BsGreeks :=
  if p.time_to_expiry ≤ 0 then ⟨0, 0, 0, 0, 0⟩
  else
    let S := p.spot_price
    let K := p.strike_price
    let T := p.time_to_expiry
    let r := p.risk_free_rate
    let sigma := p.volatility
    let q := p.dividend_yield
    let d1 := bs_d1 p
    let d2 := bs_d2 p
    let delta :=
      if pyLower option_type = "call" then Real.exp (-q * T) * normCdf d1
      else -Real.exp (-q * T) * normCdf (-d1)
    let gamma := Real.exp (-q * T) * normPdf d1 / (S * sigma * Real.sqrt T)
    let theta :=
      if pyLower option_type = "call" then
        (-S * Real.exp (-q * T) * normPdf d1 * sigma / (2 * Real.sqrt T) -
            r * K * Real.exp (-r * T) * normCdf d2 +
            q * S * Real.exp (-q * T) * normCdf d1) / 365
      else
        (-S * Real.exp (-q * T) * normPdf d1 * sigma / (2 * Real.sqrt T) +
            r * K * Real.exp (-r * T) * normCdf (-d2) -
            q * S * Real.exp (-q * T) * normCdf (-d1)) / 365
    let vega := S * Real.exp (-q * T) * normPdf d1 * Real.sqrt T / 100
    let rho :=
      if pyLower option_type = "call" then K * T * Real.exp (-r * T) * normCdf d2 / 100
      else -(K * T * Real.exp (-r * T) * normCdf (-d2)) / 100
    ⟨delta, gamma, theta, vega, rho⟩

/-- `BlackScholesPricer.implied_volatility`'s objective closure: it assigns
`params.volatility = vol` on the caller's `OptionParams` (embedded by
returning the updated record) and prices with the mutated record. -/
noncomputable def iv_objective (market_price : ℝ) (option_type : String) (p : OptionParams)
    (vol : ℝ) : ℝ × OptionParams :=
  let p1 := { p with volatility := vol }
  ((calculate_price p1 option_type - market_price) ^ 2, p1)

/-- `BlackScholesPricer.implied_volatility`.  `scipy.optimize.minimize_scalar`
evaluates the objective at an internally chosen, nonempty sequence of probe
points inside the bounds `(0.01, 5.0)`; that sequence is supplied here as the
parameter `probes`, and each evaluation threads the caller's `OptionParams`
through the objective's in-place mutation.  The scalar returned by the search
is one of the probed points; which one is irrelevant to the frame property
studied here, and it is embedded as the last probe. -/
noncomputable def implied_volatility (probes : List ℝ) (market_price : ℝ) (p : OptionParams)
    (option_type : String) : Option ℝ × OptionParams :=
  let p_final := probes.foldl (fun st v => (iv_objective market_price option_type st v).2) p
  (probes.getLast?, p_final)

/-! ## Strategy layer (option_strategies.py) -/

/-- `StrategyParams` from option_strategies.py.  The dictionaries
`option_prices` and `quantities` are embedded as association lists.  Note the
record has no time-to-expiry field. -/
structure StrategyParams where
  spot_price : ℝ
  strike_prices : List ℝ
  expiry_dates : List String
  option_prices : List (String × ℝ)
  quantities : List (String × ℤ)
  risk_free_rate : ℝ
  volatility : ℝ

/-- The `OptionParams` each strategy's `calculate_greeks` builds for a leg:
spot, the leg's strike, the hardcoded `time_to_expiry=30/365`, the caller's
rate and volatility, default dividend yield. -/
noncomputable def strategy_leg_params (sp : StrategyParams) (strike : ℝ) : OptionParams :=
  ⟨sp.spot_price, strike, 30 / 365, sp.risk_free_rate, sp.volatility, 0⟩

/-- Component-wise sum of two Greeks dictionaries. -/
def addGreeks (a b : BsGreeks) : BsGreeks :=
  ⟨a.delta + b.delta, a.gamma + b.gamma, a.theta + b.theta, a.vega + b.vega, a.rho + b.rho⟩

/-- Scale a Greeks dictionary by a signed leg quantity. -/
def smulGreeks (c : ℝ) (a : BsGreeks) : BsGreeks :=
  ⟨c * a.delta, c * a.gamma, c * a.theta, c * a.vega, c * a.rho⟩

/-- `StraddleStrategy.calculate_greeks`: call Greeks plus put Greeks at the
first strike, both with the hardcoded 30/365 horizon.  `strike_prices[0]` is
embedded by `headD 0` (the code would raise on an empty list; no claim uses
one). -/
noncomputable def straddle_calculate_greeks (sp : StrategyParams) : BsGreeks :=
  let strike := sp.strike_prices.headD 0
  let call_greeks := bs_calculate_greeks (strategy_leg_params sp strike) "call"
  let put_greeks := bs_calculate_greeks (strategy_leg_params sp strike) "put"
  addGreeks call_greeks put_greeks

/-- `IronCondorStrategy.calculate_greeks`: the four legs
(put long, put short, call short, call long) with quantities `[1,-1,-1,1]`,
each priced with the hardcoded 30/365 horizon. -/
noncomputable def iron_condor_calculate_greeks (sp : StrategyParams) : BsGreeks :=
  let put_long := sp.strike_prices.getD 0 0
  let put_short := sp.strike_prices.getD 1 0
  let call_short := sp.strike_prices.getD 2 0
  let call_long := sp.strike_prices.getD 3 0
  let legs : List (ℝ × String × ℝ) :=
    [(put_long, "put", 1), (put_short, "put", -1), (call_short, "call", -1),
      (call_long, "call", 1)]
  legs.foldl
    (fun acc leg =>
      addGreeks acc (smulGreeks leg.2.2 (bs_calculate_greeks (strategy_leg_params sp leg.1) leg.2.1)))
    ⟨0, 0, 0, 0, 0⟩

/-! ## Monte Carlo pricer and the numpy global RNG (option_pricing.py) -/

/-- The process-wide numpy random-generator state, embedded for explicit
state passing.  `np.random.seed(n)` replaces it wholesale. -/
structure NpRandomState where
  seed : ℕ
deriving DecidableEq

/-- `np.random.seed`. -/
def np_random_seed (n : ℕ) (_g : NpRandomState) : NpRandomState := ⟨n⟩

/-- Arithmetic mean of a list, `np.mean`. -/
noncomputable def lmean (l : List ℝ) : ℝ := l.sum / l.length

/-- Population standard deviation of a list, `np.std`. -/
noncomputable def lstd (l : List ℝ) : ℝ :=
  Real.sqrt (lmean (l.map (fun x => (x - lmean l) ^ 2)))

open Classical in
/-- `MonteCarloPricer.calculate_price`.  The call takes no seed or generator
argument; it executes `np.random.seed(42)` against the process-wide state and
then draws.  The numpy generator's standard-normal stream is a deterministic
function of the seeded state, embedded by the parameter `draw` (seed, count ↦
variates).  Returns ((price, standard error), post-call global RNG state). -/
noncomputable def mc_calculate_price (draw : ℕ → ℕ → List ℝ) (p : OptionParams)
    (option_type : String) (simulations : ℕ) (g : NpRandomState) :
    (ℝ × ℝ) × NpRandomState :=
  if p.time_to_expiry ≤ 0 then
    let payoff :=
      if pyLower option_type = "call" then max (p.spot_price - p.strike_price) 0
      else max (p.strike_price - p.spot_price) 0
    ((payoff, 0), g)
  else
    let g1 := np_random_seed 42 g
    let Z := draw g1.seed simulations
    let ST := Z.map (fun z =>
      p.spot_price *
        Real.exp
          ((p.risk_free_rate - p.dividend_yield - p.volatility ^ 2 / 2) * p.time_to_expiry +
            p.volatility * Real.sqrt p.time_to_expiry * z))
    let payoffs := ST.map (fun st =>
      if pyLower option_type = "call" then max (st - p.strike_price) 0
      else max (p.strike_price - st) 0)
    let option_price := Real.exp (-p.risk_free_rate * p.time_to_expiry) * lmean payoffs
    let standard_error :=
      Real.exp (-p.risk_free_rate * p.time_to_expiry) * lstd payoffs / Real.sqrt simulations
    ((option_price, standard_error), g1)

/-! ## IEEE-754 value model (numpy float semantics in option_pricing.py) -/

/-- An IEEE-754 double as the pricing code observes it: a finite value, an
infinity, or NaN.  numpy emits these (with at most a RuntimeWarning, never an
exception) for `1/0`, `log(-1)`, `0/0`, … -/
inductive Fl where
  | fin : ℝ → Fl
  | pinf : Fl
  | ninf : Fl
  | nan : Fl

open Classical in
/-- IEEE addition. -/
noncomputable def fadd : Fl → Fl → Fl
  | .fin a, .fin b => .fin (a + b)
  | .fin _, .pinf => .pinf
  | .pinf, .fin _ => .pinf
  | .fin _, .ninf => .ninf
  | .ninf, .fin _ => .ninf
  | .pinf, .pinf => .pinf
  | .ninf, .ninf => .ninf
  | _, _ => .nan

/-- IEEE negation. -/
noncomputable def fneg : Fl → Fl
  | .fin a => .fin (-a)
  | .pinf => .ninf
  | .ninf => .pinf
  | .nan => .nan

/-- IEEE subtraction. -/
noncomputable def fsub (a b : Fl) : Fl := fadd a (fneg b)

open Classical in
/-- IEEE multiplication. -/
noncomputable def fmul : Fl → Fl → Fl
  | .fin a, .fin b => .fin (a * b)
  | .fin a, .pinf => if 0 < a then .pinf else if a < 0 then .ninf else .nan
  | .pinf, .fin b => if 0 < b then .pinf else if b < 0 then .ninf else .nan
  | .fin a, .ninf => if 0 < a then .ninf else if a < 0 then .pinf else .nan
  | .ninf, .fin b => if 0 < b then .ninf else if b < 0 then .pinf else .nan
  | .pinf, .pinf => .pinf
  | .ninf, .ninf => .pinf
  | .pinf, .ninf => .ninf
  | .ninf, .pinf => .ninf
  | _, _ => .nan

open Classical in
/-- IEEE division (division of a finite value by +0.0 gives a signed
infinity, 0/0 gives NaN; numpy raises no exception). -/
noncomputable def fdiv : Fl → Fl → Fl
  | .fin a, .fin b =>
    if b = 0 then (if 0 < a then .pinf else if a < 0 then .ninf else .nan)
    else .fin (a / b)
  | .fin _, .pinf => .fin 0
  | .fin _, .ninf => .fin 0
  | .pinf, .fin b => if b < 0 then .ninf else .pinf
  | .ninf, .fin b => if b < 0 then .pinf else .ninf
  | _, _ => .nan

open Classical in
/-- `np.log` on a double: `log(0)=-inf`, `log(x<0)=nan` (warning only). -/
noncomputable def flog : Fl → Fl
  | .fin a => if 0 < a then .fin (Real.log a) else if a = 0 then .ninf else .nan
  | .pinf => .pinf
  | _ => .nan

open Classical in
/-- `np.sqrt` on a double: `sqrt(x<0)=nan` (warning only). -/
noncomputable def fsqrt : Fl → Fl
  | .fin a => if a < 0 then .nan else .fin (Real.sqrt a)
  | .pinf => .pinf
  | _ => .nan

/-- `np.exp` on a double. -/
noncomputable def fexp : Fl → Fl
  | .fin a => .fin (Real.exp a)
  | .pinf => .pinf
  | .ninf => .fin 0
  | .nan => .nan

open Classical in
/-- IEEE ordered less-than: any comparison with NaN is false. -/
noncomputable def flt : Fl → Fl → Bool
  | .fin a, .fin b => decide (a < b)
  | .fin _, .pinf => true
  | .ninf, .fin _ => true
  | .ninf, .pinf => true
  | _, _ => false

/-- Python's builtin `max(x, y)`: returns `y` only when `x < y` holds, so
`max(nan, 0.0)` is `nan`. -/
noncomputable def pymax (x y : Fl) : Fl := if flt x y then y else x

/-- `scipy.stats.norm.cdf` extended to IEEE specials. -/
noncomputable def cdfF : Fl → Fl
  | .fin a => .fin (normCdf a)
  | .pinf => .fin 1
  | .ninf => .fin 0
  | .nan => .nan

/-- `scipy.stats.norm.pdf` extended to IEEE specials. -/
noncomputable def pdfF : Fl → Fl
  | .fin a => .fin (normPdf a)
  | .pinf => .fin 0
  | .ninf => .fin 0
  | .nan => .nan

open Classical in
/-- `BlackScholesPricer.calculate_price` under IEEE float semantics.
Subexpressions that only combine finite inputs with exception-free finite
operations are carried as `Fl.fin` of their real value; the operations that
produce IEEE specials on invalid inputs (the `d1` quotient, the log, the
sqrt, the final products with the cdf terms) are taken in `Fl`. -/
noncomputable def calculate_price_fl (p : OptionParams) (option_type : String) : Fl :=
  if p.time_to_expiry ≤ 0 then
    if pyLower option_type = "call" then
      pymax (.fin (p.spot_price - p.strike_price)) (.fin 0)
    else pymax (.fin (p.strike_price - p.spot_price)) (.fin 0)
  else
    let v := fmul (.fin p.volatility) (fsqrt (.fin p.time_to_expiry))
    let d1 :=
      fdiv
        (fadd (flog (fdiv (.fin p.spot_price) (.fin p.strike_price)))
          (.fin
            ((p.risk_free_rate - p.dividend_yield + p.volatility ^ 2 / 2) * p.time_to_expiry)))
        v
    let d2 := fsub d1 v
    let price :=
      if pyLower option_type = "call" then
        fsub
          (fmul (.fin (p.spot_price * Real.exp (-p.dividend_yield * p.time_to_expiry))) (cdfF d1))
          (fmul (.fin (p.strike_price * Real.exp (-p.risk_free_rate * p.time_to_expiry)))
            (cdfF d2))
      else
        fsub
          (fmul (.fin (p.strike_price * Real.exp (-p.risk_free_rate * p.time_to_expiry)))
            (cdfF (fneg d2)))
          (fmul (.fin (p.spot_price * Real.exp (-p.dividend_yield * p.time_to_expiry)))
            (cdfF (fneg d1)))
    pymax price (.fin 0)

/-- The Greeks dictionary under IEEE float semantics. -/
structure GreeksFl where
  delta : Fl
  gamma : Fl
  theta : Fl
  vega : Fl
  rho : Fl

open Classical in
/-- `BlackScholesPricer.calculate_greeks` under IEEE float semantics. -/
noncomputable def calculate_greeks_fl (p : OptionParams) (option_type : String) : GreeksFl :=
  if p.time_to_expiry ≤ 0 then ⟨.fin 0, .fin 0, .fin 0, .fin 0, .fin 0⟩
  else
    let S := p.spot_price
    let K := p.strike_price
    let T := p.time_to_expiry
    let r := p.risk_free_rate
    let sigma := p.volatility
    let q := p.dividend_yield
    let v := fmul (.fin sigma) (fsqrt (.fin T))
    let d1 :=
      fdiv
        (fadd (flog (fdiv (.fin S) (.fin K)))
          (.fin ((r - q + sigma ^ 2 / 2) * T)))
        v
    let d2 := fsub d1 v
    let delta :=
      if pyLower option_type = "call" then fmul (.fin (Real.exp (-q * T))) (cdfF d1)
      else fmul (.fin (-Real.exp (-q * T))) (cdfF (fneg d1))
    let gamma :=
      fdiv (fmul (.fin (Real.exp (-q * T))) (pdfF d1)) (.fin (S * sigma * Real.sqrt T))
    let theta :=
      if pyLower option_type = "call" then
        fdiv
          (fadd
            (fadd
              (fdiv (fmul (.fin (-S * Real.exp (-q * T) * sigma)) (pdfF d1))
                (.fin (2 * Real.sqrt T)))
              (fmul (.fin (-(r * K * Real.exp (-r * T)))) (cdfF d2)))
            (fmul (.fin (q * S * Real.exp (-q * T))) (cdfF d1)))
          (.fin 365)
      else
        fdiv
          (fadd
            (fadd
              (fdiv (fmul (.fin (-S * Real.exp (-q * T) * sigma)) (pdfF d1))
                (.fin (2 * Real.sqrt T)))
              (fmul (.fin (r * K * Real.exp (-r * T))) (cdfF (fneg d2))))
            (fmul (.fin (-(q * S * Real.exp (-q * T)))) (cdfF (fneg d1))))
          (.fin 365)
    let vega := fdiv (fmul (.fin (S * Real.exp (-q * T) * Real.sqrt T)) (pdfF d1)) (.fin 100)
    let rho :=
      if pyLower option_type = "call" then
        fdiv (fmul (.fin (K * T * Real.exp (-r * T))) (cdfF d2)) (.fin 100)
      else fdiv (fmul (.fin (-(K * T * Real.exp (-r * T)))) (cdfF (fneg d2))) (.fin 100)
    ⟨delta, gamma, theta, vega, rho⟩

/-- The dictionary returned by `OptionPricingEngine.price_option`. -/
structure PricingOut where
  price : Fl
  greeks : Option GreeksFl
  error : Option String

/-- `OptionPricingEngine.price_option` for `method='black_scholes'`: the
Black-Scholes call runs start to finish without raising (numpy turns the
invalid operations into IEEE specials), so the `except` branch — the only
source of an `error` entry — is unreachable and the returned dictionary is
`{price, greeks, method}`.  The `binomial` and `monte_carlo` methods are
embedded separately; an unknown method name raises `ValueError`, caught into
the error dictionary. -/
noncomputable def price_option (p : OptionParams) (option_type : String) (method : String) :
    PricingOut :=
  if method = "black_scholes" then
    { price := calculate_price_fl p option_type
      greeks := some (calculate_greeks_fl p option_type)
      error := none }
  else { price := .fin 0, greeks := none, error := some "Unknown pricing method" }

/-! ## Concrete instances used by the claims -/

/-- A day's pricing oracle: the ATM call prices at 10, the put at 8. -/
def flatPriceOf : ℚ → String → ℚ := fun _ option_type => if option_type = "call" then 10 else 8

/-- Day 1 of the two-day run: spot 18000, trailing volatility 0.20 (inside the
entry band), fresh positions carry 5 days to expiry (the next weekly
expiry). -/
def c1Day1 : DayInput := ⟨1, 18000, 1/5, flatPriceOf, 5⟩

/-- Day 2: the marks are unchanged, volatility 0.60 is outside the entry band
so no new trade is opened after the closes. -/
def c1Day2 : DayInput := ⟨2, 18000, 3/5, flatPriceOf, 5⟩

/-- The final state of the two-day run. -/
def c1Final : BState := run_backtest_days rmDefault initialBState [c1Day1, c1Day2]

/-- An open call position whose option has reached expiry (the exit check
would see 0 days to expiry; its pricing parameters below carry
`time_to_expiry = 0`). -/
def c2pos : RPosition := ⟨"NIFTY18000CE", "call", 18000, 0, 1, 150, 150, 0, "straddle"⟩

/-- The actual pricing parameters of `c2pos`: spot 18000, strike 18000,
expired (`time_to_expiry = 0`), rate 5%, volatility 25%. -/
noncomputable def c2Params : OptionParams := ⟨18000, 18000, 0, 5/100, 25/100, 0⟩

/-- Scenario C's position: a call entered at 150. -/
def c5Pos : RPosition := ⟨"NIFTY18000CE", "call", 18000, 30, 1, 150, 146, 0, "straddle"⟩

/-- Monte Carlo parameters with a strictly positive time to expiry. -/
noncomputable def c6Params : OptionParams := ⟨18000, 18000, 1, 5/100, 25/100, 0⟩

/-- Invalid pricing input: zero volatility (spot 100, strike 100, one year,
rate 5%). -/
noncomputable def c7Params : OptionParams := ⟨100, 100, 1, 1/20, 0, 0⟩

/-- Strategy parameters quoting a near expiry. -/
noncomputable def c8Near : StrategyParams :=
  ⟨18000, [17800, 17900, 18100, 18200], ["2024-01-04"], [], [], 5/100, 1/4⟩

/-- The same strategy parameters quoting an expiry two years later. -/
noncomputable def c8Far : StrategyParams :=
  ⟨18000, [17800, 17900, 18100, 18200], ["2025-12-25"], [], [], 5/100, 1/4⟩

/-- Caller's parameters before an implied-volatility search: volatility 0.2. -/
noncomputable def c9Params : OptionParams := ⟨18000, 18000, 1/12, 5/100, 1/5, 0⟩

/-- A probe sequence for the bounded scalar minimization: two evaluations
inside the bounds (0.01, 5.0). -/
noncomputable def c9Probes : List ℝ := [1/2, 6/5]

/-- Parity witness parameters: S=K=18000, T=30/365, r=5%, σ=25% (Scenario A). -/
noncomputable def c4Params : OptionParams := ⟨18000, 18000, 30/365, 5/100, 25/100, 0⟩

/-- Expired-option parameters for the parity witness's intrinsic branch. -/
noncomputable def c4ParamsExpired : OptionParams := ⟨18000, 17000, 0, 5/100, 25/100, 0⟩


/-! ## Helper lemmas -/

theorem pyLower_call : pyLower "call" = "call" := by decide

theorem pyLower_put : pyLower "put" = "put" := by decide

/-- `should_exit_position` as a first-match cascade over the three rule
conditions. -/
theorem should_exit_position_cases (rm : RiskManagerQ) (pos : RPosition) (cp : ℚ) :
    should_exit_position rm pos cp =
      if stopHit rm pos cp then (true, "stop_loss")
      else if tpHit rm pos cp then (true, "take_profit")
      else if pos.expiry_dte ≤ 7 then (true, "time_decay")
      else (false, "hold") := by
  unfold should_exit_position stopHit tpHit
  split_ifs <;> first | rfl | (exfalso; itauto)

/-! ## Claim theorems -/

/-- Claim C1 (the code violates the claimed invariant): in the two-day run
`c1Final`, day 1 opens a 22-contract call/put pair (equity 1000000 after the
entry and the mark), day 2 closes both positions at unchanged marks — both
recorded trades have pnl 0 — and opens nothing, leaving no open positions;
yet the day-2 equity is 980200.  The claimed identity
equity[t] = equity[t-1] + realized_pnl_from_closes[t] + Δmark_of_still_open[t]
demands 1000000 + 0 + 0.  Closing a position credits only the P&L, never the
position's sale value, so equity drops by the entry cost 18·22·50 = 19800. -/
theorem c1_capital_conservation_violated :
    c1Final.equity_curve = [⟨1, 1000000, 980200, 2⟩, ⟨2, 980200, 980200, 0⟩] ∧
    c1Final.trades.map (fun t => (t.exit_day, t.pnl)) = [(2, 0), (2, 0)] ∧
    c1Final.positions = [] ∧
    (980200 : ℚ) ≠ 1000000 + ((0 : ℚ) + 0) + 0 := by
  refine ⟨?_, ?_, ?_, by norm_num⟩ <;>
    norm_num +decide [c1Final, run_backtest_days, process_day, check_exit_signals,
      should_exit_position, calculate_stop_loss_level, calculate_take_profit_level,
      enter_trade, should_enter_trade, update_position_values, update_equity_curve,
      close_position, get_atm_strike, round_eq, calculate_position_size,
      backtest_select_strategy, flatPriceOf, c1Day1, c1Day2, initialBState, rmDefault,
      pyLower, List.erase]

/-- Claim C2 (the code uses placeholder constants): for the single-position
portfolio `[c2pos]` the risk layer's quantity-weighted delta is the hardcoded
1/2, while the pricing engine's Black-Scholes Greeks at the position's actual
parameters (`c2Params`, an expired option) give delta 0; the two disagree, so
the portfolio Greeks are not the quantity-weighted sums of the pricing
engine's per-position Greeks. -/
theorem c2_portfolio_greeks_are_placeholders :
    rm_total_delta [c2pos] = 1/2 ∧
    (bs_calculate_greeks c2Params "call").delta * ((c2pos.quantity : ℤ) : ℝ) = 0 ∧
    ((rm_total_delta [c2pos] : ℚ) : ℝ) ≠
      (bs_calculate_greeks c2Params "call").delta * ((c2pos.quantity : ℤ) : ℝ) := by
  have hg : bs_calculate_greeks c2Params "call" = ⟨0, 0, 0, 0, 0⟩ := by
    norm_num [bs_calculate_greeks, c2Params]
  have h1 : rm_total_delta [c2pos] = 1/2 := by
    norm_num +decide [rm_total_delta, rm_calculate_delta, c2pos, pyLower]
  refine ⟨h1, by rw [hg]; norm_num, ?_⟩
  rw [hg, h1]
  norm_num

/-- Claim C3 (the code opens a fixed call/put pair): on a day whose trailing
volatility selects `iron_condor`, `_enter_trade` opens exactly two positions —
an ATM call and an ATM put at the single strike 18000, both merely tagged
`iron_condor` — not the four option positions at four distinct strikes of an
iron condor (nor three call legs for a butterfly). -/
theorem c3_enter_trade_ignores_strategy_template :
    backtest_select_strategy (9/50) = "iron_condor" ∧
    (enter_trade initialBState 1 18000 "iron_condor" flatPriceOf 5).positions.map
        (fun p => (p.option_type, p.strike_price, p.strategy_name)) =
      [("call", 18000, "iron_condor"), ("put", 18000, "iron_condor")] ∧
    (enter_trade initialBState 1 18000 "iron_condor" flatPriceOf 5).positions.length = 2 ∧
    (2 : ℕ) ≠ 4 := by
  refine ⟨by norm_num [backtest_select_strategy], ?_, ?_, by norm_num⟩ <;>
    norm_num +decide [enter_trade, initialBState, get_atm_strike, round_eq,
      calculate_position_size, flatPriceOf]

/-- Claim C5 (confirmed): the exit check evaluates stop-loss, then
take-profit, then time-decay, returning the first matching reason and hold
otherwise; the stop level of a call is entry_price·(1 − stop_loss_pct); and in
Scenario C (call, entry 150, stop_loss_pct 0.02, current 146) the level is 147
and the signal is stop_loss. -/
theorem c5_exit_rule_order (rm : RiskManagerQ) (pos : RPosition) (cp : ℚ) :
    calculate_stop_loss_level rm pos.entry_price "call" =
        pos.entry_price * (1 - rm.stop_loss_pct) ∧
    (stopHit rm pos cp → should_exit_position rm pos cp = (true, "stop_loss")) ∧
    (¬stopHit rm pos cp → tpHit rm pos cp →
      should_exit_position rm pos cp = (true, "take_profit")) ∧
    (¬stopHit rm pos cp → ¬tpHit rm pos cp → pos.expiry_dte ≤ 7 →
      should_exit_position rm pos cp = (true, "time_decay")) ∧
    (¬stopHit rm pos cp → ¬tpHit rm pos cp → ¬pos.expiry_dte ≤ 7 →
      should_exit_position rm pos cp = (false, "hold")) ∧
    calculate_stop_loss_level rmDefault 150 "call" = 147 ∧
    should_exit_position rmDefault c5Pos 146 = (true, "stop_loss") := by
  refine ⟨?_, ?_, ?_, ?_, ?_, ?_, ?_⟩
  · simp [calculate_stop_loss_level, pyLower_call]
  · intro h
    rw [should_exit_position_cases, if_pos h]
  · intro hs ht
    rw [should_exit_position_cases, if_neg hs, if_pos ht]
  · intro hs ht hd
    rw [should_exit_position_cases, if_neg hs, if_neg ht, if_pos hd]
  · intro hs ht hd
    rw [should_exit_position_cases, if_neg hs, if_neg ht, if_neg hd]
  · norm_num +decide [calculate_stop_loss_level, rmDefault, pyLower]
  · norm_num +decide [should_exit_position, calculate_stop_loss_level, rmDefault, c5Pos,
      pyLower]

/-- Witness for C5: Scenario C's input satisfies the stop-loss condition and
the theorem yields the stop_loss signal there. -/
theorem c5_exit_rule_order_witness :
    stopHit rmDefault c5Pos 146 ∧
      should_exit_position rmDefault c5Pos 146 = (true, "stop_loss") := by
  have h : stopHit rmDefault c5Pos 146 := by
    norm_num +decide [stopHit, calculate_stop_loss_level, rmDefault, c5Pos, pyLower]
  exact ⟨h, (c5_exit_rule_order rmDefault c5Pos 146).2.1 h⟩

/-- Claim C10 (confirmed): `StrategySelector.select_strategy` never returns
butterfly — its branch is shadowed by the iron_condor branch (volatility < 0.2
is tested before volatility < 0.15) — and always returns straddle, strangle or
iron_condor. -/
theorem c10_butterfly_unreachable (volatility : ℚ) (trend : String) :
    selector_select_strategy volatility trend ≠ "butterfly" ∧
    (selector_select_strategy volatility trend = "straddle" ∨
      selector_select_strategy volatility trend = "strangle" ∨
      selector_select_strategy volatility trend = "iron_condor") := by
  unfold selector_select_strategy
  split_ifs with h1 h2 h3 h4
  · exact ⟨by decide, Or.inl rfl⟩
  · exact ⟨by decide, Or.inr (Or.inl rfl)⟩
  · exact ⟨by decide, Or.inr (Or.inr rfl)⟩
  · exact absurd ⟨lt_trans h4.1 (by norm_num), h4.2⟩ h3
  · exact ⟨by decide, Or.inl rfl⟩

/-- Folding the volatility-overwriting step over a nonempty probe list leaves
the last probe in the volatility field. -/
theorem foldl_set_volatility (l : List ℝ) (p : OptionParams) (v : ℝ)
    (h : l.getLast? = some v) :
    (l.foldl (fun st x => { st with volatility := x }) p).volatility = v := by
  induction l generalizing p with
  | nil => cases h
  | cons a t ih =>
    cases t with
    | nil =>
      simp only [List.getLast?_singleton, Option.some.injEq] at h
      simp [List.foldl, h]
    | cons b t2 =>
      rw [List.getLast?_cons_cons] at h
      exact ih { p with volatility := a } h

/-- Claim C9 (the code mutates the caller's record): the implied-volatility
search leaves the caller's `OptionParams.volatility` equal to the search's
last probe point, so whenever that probe differs from the original volatility
the field does not equal its value before the call. -/
theorem c9_implied_volatility_mutates_params (probes : List ℝ) (market_price : ℝ)
    (p : OptionParams) (option_type : String) (v : ℝ) (hv : probes.getLast? = some v) :
    ((implied_volatility probes market_price p option_type).2).volatility = v ∧
    (v ≠ p.volatility →
      ((implied_volatility probes market_price p option_type).2).volatility ≠ p.volatility) := by
  have h : ((implied_volatility probes market_price p option_type).2).volatility = v := by
    simp only [implied_volatility]
    exact foldl_set_volatility probes p v hv
  exact ⟨h, fun hne => h ▸ hne⟩

/-- Witness for C9: after a search probing 0.5 then 1.2 on parameters whose
volatility was 0.2, the caller's volatility field holds 1.2, not 0.2. -/
theorem c9_implied_volatility_mutates_params_witness :
    c9Probes.getLast? = some ((6 : ℝ)/5) ∧
    ((implied_volatility c9Probes 10 c9Params "call").2).volatility = 6/5 ∧
    ((6 : ℝ)/5) ≠ c9Params.volatility := by
  have hl : c9Probes.getLast? = some ((6 : ℝ)/5) := rfl
  refine ⟨hl, (c9_implied_volatility_mutates_params c9Probes 10 c9Params "call" (6/5) hl).1, ?_⟩
  norm_num [c9Params]

/-- Claim C8 (the code hardcodes a 30-day horizon): every per-leg pricing call
of the strategy Greeks uses `time_to_expiry = 30/365`, and the straddle and
iron-condor Greeks depend only on spot, strikes, rate and volatility — two
parameter records differing in their quoted expiry dates (the only
time-related content of `StrategyParams`, which has no time-to-expiry field)
produce identical Greeks. -/
theorem c8_strategy_greeks_fixed_horizon (sp1 sp2 : StrategyParams)
    (h1 : sp1.spot_price = sp2.spot_price) (h2 : sp1.strike_prices = sp2.strike_prices)
    (h3 : sp1.risk_free_rate = sp2.risk_free_rate) (h4 : sp1.volatility = sp2.volatility) :
    (∀ strike, (strategy_leg_params sp1 strike).time_to_expiry = 30/365) ∧
    straddle_calculate_greeks sp1 = straddle_calculate_greeks sp2 ∧
    iron_condor_calculate_greeks sp1 = iron_condor_calculate_greeks sp2 := by
  refine ⟨fun strike => rfl, ?_, ?_⟩ <;>
    simp only [straddle_calculate_greeks, iron_condor_calculate_greeks, strategy_leg_params,
      h1, h2, h3, h4]

/-- Witness for C8: the concrete parameter records quoting an expiry in 2024
and one in 2025 get identical strategy Greeks. -/
theorem c8_strategy_greeks_fixed_horizon_witness :
    c8Near.expiry_dates ≠ c8Far.expiry_dates ∧
    straddle_calculate_greeks c8Near = straddle_calculate_greeks c8Far ∧
    iron_condor_calculate_greeks c8Near = iron_condor_calculate_greeks c8Far := by
  refine ⟨by decide, ?_, ?_⟩
  · exact (c8_strategy_greeks_fixed_horizon c8Near c8Far rfl rfl rfl rfl).2.1
  · exact (c8_strategy_greeks_fixed_horizon c8Near c8Far rfl rfl rfl rfl).2.2

/-- Claim C6 (the code relies on mutating process-wide RNG state): the Monte
Carlo pricing call takes no seed or generator parameter; for a strictly
positive time to expiry it overwrites the process-wide numpy RNG state with
the constant seed 42 whatever that state was, and its price and standard
error do not depend on the incoming global state. -/
theorem c6_monte_carlo_global_rng (draw : ℕ → ℕ → List ℝ) (g1 g2 : NpRandomState) :
    (mc_calculate_price draw c6Params "call" 100000 g1).2 = ⟨42⟩ ∧
    (mc_calculate_price draw c6Params "call" 100000 g1).1 =
      (mc_calculate_price draw c6Params "call" 100000 g2).1 := by
  have hT : ¬(c6Params.time_to_expiry ≤ 0) := by norm_num [c6Params]
  constructor <;> simp only [mc_calculate_price, if_neg hT, np_random_seed]

/-! ## The standard normal distribution: analytic facts -/

/-- `normPdf` is the Gaussian density with mean 0 and variance 1. -/
theorem normPdf_eq_gaussian : normPdf = ProbabilityTheory.gaussianPDFReal 0 1 := by
  funext x
  simp [normPdf, ProbabilityTheory.gaussianPDFReal]

theorem integrable_normPdf : Integrable normPdf := by
  rw [normPdf_eq_gaussian]
  exact ProbabilityTheory.integrable_gaussianPDFReal 0 1

theorem integral_normPdf : ∫ x, normPdf x = 1 := by
  rw [normPdf_eq_gaussian]
  exact ProbabilityTheory.integral_gaussianPDFReal_eq_one 0 one_ne_zero

theorem normPdf_neg (x : ℝ) : normPdf (-x) = normPdf x := by
  simp [normPdf]

theorem normCdf_neg_eq_integral_Ioi (x : ℝ) :
    normCdf (-x) = ∫ t in Set.Ioi x, normPdf t := by
  rw [normCdf]
  have h1 : ∫ t in Set.Iic (-x), normPdf t = ∫ t in Set.Iic (-x), normPdf (-t) := by
    simp only [normPdf_neg]
  rw [h1, integral_comp_neg_Iic (-x) normPdf, neg_neg]

/-- The reflection identity `Φ(x) + Φ(-x) = 1`. -/
theorem normCdf_add_normCdf_neg (x : ℝ) : normCdf x + normCdf (-x) = 1 := by
  rw [normCdf, normCdf_neg_eq_integral_Ioi,
    intervalIntegral.integral_Iic_add_Ioi integrable_normPdf.integrableOn
      integrable_normPdf.integrableOn,
    integral_normPdf]

theorem normCdf_eq_integral_Ioi (d : ℝ) :
    normCdf d = ∫ t in Set.Ioi (-d), normPdf t := by
  have := normCdf_neg_eq_integral_Ioi (-d)
  rwa [neg_neg] at this

/-- Translating the domain of a Gaussian tail integral. -/
theorem integral_normPdf_shift (c v : ℝ) :
    ∫ u in Set.Ioi c, normPdf (u - v) = ∫ t in Set.Ioi (c - v), normPdf t := by
  have h1 : MeasurePreserving (fun u : ℝ => u - v) volume volume :=
    measurePreserving_sub_right volume v
  have h2 : MeasurableEmbedding (fun u : ℝ => u - v) :=
    (Homeomorph.subRight v).isClosedEmbedding.measurableEmbedding
  have h3 := h1.setIntegral_preimage_emb h2 normPdf (Set.Ioi (c - v))
  have h4 : Set.preimage (fun u : ℝ => u - v) (Set.Ioi (c - v)) = Set.Ioi c := by
    ext u
    simp [sub_lt_sub_iff_right]
  rwa [h4] at h3

theorem integrable_normPdf_shift (v : ℝ) : Integrable (fun u : ℝ => normPdf (u - v)) :=
  integrable_normPdf.comp_sub_right v

/-- On the tail `u ≥ -(log(a/b)/v - v/2)` the translated Gaussian density
dominates: `b·φ(u) ≤ a·φ(u - v)`. -/
theorem normPdf_shift_pointwise (a b v u : ℝ) (ha : 0 < a) (hb : 0 < b) (hv : 0 < v)
    (hu : -(Real.log (a / b) / v - v / 2) ≤ u) :
    b * normPdf u ≤ a * normPdf (u - v) := by
  have hc : (0 : ℝ) < (Real.sqrt (2 * Real.pi))⁻¹ := by positivity
  have key : b * Real.exp (-(u ^ 2) / 2) ≤ a * Real.exp (-((u - v) ^ 2) / 2) := by
    rw [← Real.exp_log hb, ← Real.exp_log ha, ← Real.exp_add, ← Real.exp_add, Real.exp_le_exp]
    have hlog : Real.log (a / b) = Real.log a - Real.log b := Real.log_div ha.ne' hb.ne'
    rw [hlog] at hu
    have hu2 : (v / 2 - (Real.log a - Real.log b) / v) * v ≤ u * v := by
      have h5 : v / 2 - (Real.log a - Real.log b) / v ≤ u := by linarith
      exact mul_le_mul_of_nonneg_right h5 hv.le
    have hdv : (Real.log a - Real.log b) / v * v = Real.log a - Real.log b :=
      div_mul_cancel₀ _ hv.ne'
    nlinarith [hu2, hdv]
  calc b * normPdf u = (Real.sqrt (2 * Real.pi))⁻¹ * (b * Real.exp (-(u ^ 2) / 2)) := by
        rw [normPdf]; ring
    _ ≤ (Real.sqrt (2 * Real.pi))⁻¹ * (a * Real.exp (-((u - v) ^ 2) / 2)) :=
        mul_le_mul_of_nonneg_left key hc.le
    _ = a * normPdf (u - v) := by rw [normPdf]; ring

/-- The Black-Scholes kernel `a·Φ(log(a/b)/v + v/2) − b·Φ(log(a/b)/v − v/2)`
is nonnegative for positive `a`, `b`, `v` — it is the integral of a
nonnegative function over the exercise region. -/
theorem bs_core_nonneg (a b v : ℝ) (ha : 0 < a) (hb : 0 < b) (hv : 0 < v) :
    0 ≤ a * normCdf (Real.log (a / b) / v + v / 2) -
      b * normCdf (Real.log (a / b) / v - v / 2) := by
  set d1 := Real.log (a / b) / v + v / 2 with hd1
  set d2 := Real.log (a / b) / v - v / 2 with hd2
  rw [normCdf_eq_integral_Ioi d1, normCdf_eq_integral_Ioi d2]
  have hshift : ∫ u in Set.Ioi (-d2), normPdf (u - v) = ∫ t in Set.Ioi (-d1), normPdf t := by
    rw [integral_normPdf_shift]
    congr 1
    rw [hd1, hd2]
    ring_nf
  rw [← hshift, ← integral_mul_left, ← integral_mul_left, ← integral_sub]
  · refine setIntegral_nonneg measurableSet_Ioi (fun u hu => ?_)
    have hu2 : -d2 ≤ u := le_of_lt hu
    have h6 := normPdf_shift_pointwise a b v u ha hb hv (by rw [hd2] at hu2; exact hu2)
    linarith
  · exact ((integrable_normPdf_shift v).const_mul a).integrableOn
  · exact (integrable_normPdf.const_mul b).integrableOn

/-- Splitting the `d1` quotient into the forward log-moneyness term plus half
the total volatility. -/
theorem d1_decomp (L r q sigma T s : ℝ) (hσ : 0 < sigma) (hs : 0 < s) (hs2 : s ^ 2 = T) :
    (L + (r - q + sigma ^ 2 / 2) * T) / (sigma * s) =
      (L + (r - q) * T) / (sigma * s) + sigma * s / 2 := by
  subst hs2
  field_simp
  ring_nf

/-- Claim C4 (confirmed): for spot, strike and volatility positive, the
Black-Scholes call price minus put price equals
`S·e^{-qT} − K·e^{-rT}` whenever the time to expiry is positive, and equals
`S − K` through the intrinsic-value branch whenever it is nonpositive (both
raw prices are nonnegative, so the `max(price, 0)` floors never bite). -/
theorem c4_put_call_parity (p : OptionParams) (hS : 0 < p.spot_price)
    (hK : 0 < p.strike_price) (hσ : 0 < p.volatility) :
    (0 < p.time_to_expiry →
      calculate_price p "call" - calculate_price p "put" =
        p.spot_price * Real.exp (-p.dividend_yield * p.time_to_expiry) -
          p.strike_price * Real.exp (-p.risk_free_rate * p.time_to_expiry)) ∧
    (p.time_to_expiry ≤ 0 →
      calculate_price p "call" - calculate_price p "put" =
        p.spot_price - p.strike_price) := by
  have hpc : pyLower "call" = "call" := pyLower_call
  have hpp : ¬(pyLower "put" = "call") := by decide
  constructor
  · intro hT
    have hTle : ¬(p.time_to_expiry ≤ 0) := not_le.mpr hT
    have hs : 0 < Real.sqrt p.time_to_expiry := Real.sqrt_pos.mpr hT
    have hv : 0 < p.volatility * Real.sqrt p.time_to_expiry := mul_pos hσ hs
    set A := p.spot_price * Real.exp (-p.dividend_yield * p.time_to_expiry) with hA_def
    set B := p.strike_price * Real.exp (-p.risk_free_rate * p.time_to_expiry) with hB_def
    set v := p.volatility * Real.sqrt p.time_to_expiry with hv_def
    have hA : 0 < A := by rw [hA_def]; positivity
    have hB : 0 < B := by rw [hB_def]; positivity
    have hlogAB : Real.log (A / B) =
        Real.log (p.spot_price / p.strike_price) +
          (p.risk_free_rate - p.dividend_yield) * p.time_to_expiry := by
      rw [hA_def, hB_def, Real.log_div (by positivity) (by positivity),
        Real.log_mul hS.ne' (Real.exp_ne_zero _), Real.log_mul hK.ne' (Real.exp_ne_zero _),
        Real.log_exp, Real.log_exp, Real.log_div hS.ne' hK.ne']
      ring
    have hd1 : bs_d1 p = Real.log (A / B) / v + v / 2 := by
      rw [bs_d1, hlogAB, hv_def]
      exact d1_decomp _ _ _ _ _ _ hσ hs (Real.sq_sqrt hT.le)
    have hd2 : bs_d2 p = Real.log (A / B) / v - v / 2 := by
      rw [bs_d2, hd1, hv_def]
      ring
    have hcall0 : 0 ≤ A * normCdf (bs_d1 p) - B * normCdf (bs_d2 p) := by
      rw [hd1, hd2]
      exact bs_core_nonneg A B v hA hB hv
    have hswap : Real.log (B / A) = -Real.log (A / B) := by
      rw [← Real.log_inv, inv_div]
    have e1 : -bs_d2 p = Real.log (B / A) / v + v / 2 := by
      rw [hd2, hswap]
      ring
    have e2 : -bs_d1 p = Real.log (B / A) / v - v / 2 := by
      rw [hd1, hswap]
      ring
    have hput0 : 0 ≤ B * normCdf (-bs_d2 p) - A * normCdf (-bs_d1 p) := by
      rw [e1, e2]
      exact bs_core_nonneg B A v hB hA hv
    have hc : calculate_price p "call" = A * normCdf (bs_d1 p) - B * normCdf (bs_d2 p) := by
      rw [calculate_price, if_neg hTle, if_pos hpc, ← hA_def, ← hB_def]
      exact max_eq_left hcall0
    have hp : calculate_price p "put" = B * normCdf (-bs_d2 p) - A * normCdf (-bs_d1 p) := by
      rw [calculate_price, if_neg hTle, if_neg hpp, ← hA_def, ← hB_def]
      exact max_eq_left hput0
    rw [hc, hp]
    have h1 := normCdf_add_normCdf_neg (bs_d1 p)
    have h2 := normCdf_add_normCdf_neg (bs_d2 p)
    linear_combination A * h1 - B * h2
  · intro hT
    rw [calculate_price, calculate_price, if_pos hT, if_pos hT, if_pos hpc, if_neg hpp,
      show p.strike_price - p.spot_price = -(p.spot_price - p.strike_price) from by ring,
      max_zero_sub_max_neg_zero_eq_self]

/-- Witness for C4: Scenario A's parameters satisfy the hypotheses and the
parity identity, and the expired parameters take the intrinsic branch. -/
theorem c4_put_call_parity_witness :
    (0 : ℝ) < c4Params.spot_price ∧ 0 < c4Params.volatility ∧
      0 < c4Params.time_to_expiry ∧
    calculate_price c4Params "call" - calculate_price c4Params "put" =
      c4Params.spot_price * Real.exp (-c4Params.dividend_yield * c4Params.time_to_expiry) -
        c4Params.strike_price * Real.exp (-c4Params.risk_free_rate * c4Params.time_to_expiry) ∧
    calculate_price c4ParamsExpired "call" - calculate_price c4ParamsExpired "put" =
      c4ParamsExpired.spot_price - c4ParamsExpired.strike_price := by
  refine ⟨by norm_num [c4Params], by norm_num [c4Params], by norm_num [c4Params], ?_, ?_⟩
  · exact (c4_put_call_parity c4Params (by norm_num [c4Params]) (by norm_num [c4Params])
      (by norm_num [c4Params])).1 (by norm_num [c4Params])
  · exact (c4_put_call_parity c4ParamsExpired (by norm_num [c4ParamsExpired])
      (by norm_num [c4ParamsExpired]) (by norm_num [c4ParamsExpired])).2
      (by norm_num [c4ParamsExpired])

/-- Claim C7 (the code returns no error for invalid inputs): with zero
volatility — an invalid input — the Black-Scholes path raises no exception
under numpy's IEEE semantics, so `price_option` returns a dictionary whose
`error` entry is absent (`none`); the Greeks it returns contain
`gamma = NaN` (the 0/0 of the gamma formula), i.e. the engine silently
returns NaN/garbage instead of a defined error result. -/
theorem c7_invalid_input_returns_no_error :
    c7Params.volatility ≤ 0 ∧
    (price_option c7Params "call" "black_scholes").error = none ∧
    (price_option c7Params "call" "black_scholes").greeks =
      some (calculate_greeks_fl c7Params "call") ∧
    (calculate_greeks_fl c7Params "call").gamma = Fl.nan := by
  refine ⟨by norm_num [c7Params], rfl, rfl, ?_⟩
  norm_num +decide [calculate_greeks_fl, c7Params, pyLower, fdiv, flog, fsqrt, fmul, fadd,
    fsub, fneg, fexp, pdfF, cdfF, Real.log_one, Real.sqrt_one, Real.exp_zero]
